import Mathlib

/-!
Verification development for the `cmdfactory` options layer of kraftkit
(src/cmdfactory/options.go): the functional-options composition engine that
assembles a `CliOptions` runtime context from an ordered list of
configuration steps.

Pure Go code from options.go is embedded directly. External collaborators
that live outside this fragment (the `log`, `iostreams`, `config`,
`packmanager`, `plugins` and `internal/httpclient` packages, and the logrus
formatter implementations) are modelled from the specification's description
of their contracts; each such definition carries a doc comment starting with
"Modelled from the spec:".
-/

namespace KraftKit

/-- Log verbosity levels of the underlying logger (logrus levels). -/
inductive LogLevel where
  | trace
  | debug
  | info
  | warn
  | error
  | fatal
  | panicL
deriving DecidableEq, Repr

/-- Which formatter implementation the logger was given: the plain logrus
text formatter (used for the quiet style), kraftkit's own text formatter
(`log.TextFormatter`, used for basic/fancy), or the logrus JSON formatter. -/
inductive FormatterKind where
  | logrusText
  | kraftkitText
  | logrusJSON
deriving DecidableEq, Repr

/-- The formatter configuration fields that options.go writes:
`FullTimestamp`, `DisableTimestamp` and `TimestampFormat`, together with the
formatter implementation chosen. Unset fields keep their zero values, as in
Go. -/
structure Formatter where
  kind : FormatterKind
  fullTimestamp : Bool := false
  disableTimestamp : Bool := false
  timestampFormat : String := ""
deriving DecidableEq, Repr

/-- The logger handle built by `WithDefaultLogger`: the formatter installed
(`none` means the logrus default was left untouched), the level, and the
output binding (`none` means the default output; `some n` is the opaque id of
an `IOStreams` out channel). `logrus.NewEntry` wraps a logger into an entry
without changing these fields, so the entry is identified with its logger. -/
structure Logger where
  formatter : Option Formatter
  level : LogLevel
  out : Option Nat
deriving DecidableEq, Repr

/-- The `Log` section of kraftkit's configuration: style type tag, level
name, and the timestamp-display flag. -/
structure LogConfig where
  type : String
  level : String
  timestamps : Bool
deriving DecidableEq, Repr

/-- The `Paths` section of kraftkit's configuration. -/
structure Paths where
  plugins : String
deriving DecidableEq, Repr

/-- The configuration record fields that options.go reads. -/
structure Config where
  log : LogConfig
  noPrompt : Bool
  pager : String
  httpUnixSocket : String
  paths : Paths
deriving DecidableEq, Repr

/-- A configuration-source handle (`config.ConfigManager`): read-only access
to a `Config` record. -/
structure ConfigManager where
  config : Config
deriving DecidableEq, Repr

/-- An I/O-streams handle (`iostreams.IOStreams`): an opaque output-channel
id, the configured pager command, and the prompt-suppression flag — the
parts of the handle that options.go touches. -/
structure IOStreams where
  out : Nat
  pager : String
  neverPrompt : Bool
deriving DecidableEq, Repr

/-- An opaque HTTP client handle produced by the external client factory. -/
structure HTTPClient where
  tag : Nat
deriving DecidableEq, Repr

/-- A package-manager handle; `WithDefaultPackageManager` always builds the
umbrella manager. -/
inductive PackageManager where
  | umbrella
deriving DecidableEq, Repr

/-- A plugin-manager handle holding the search path it was constructed
from (`plugins.NewPluginManager(path, nil)`). -/
structure PluginManager where
  path : String
deriving DecidableEq, Repr

/-- The `CliOptions` builder record from options.go: at most one instance of
each aspect, every field absent until some step sets it. -/
structure CliOptions where
  ioStreams : Option IOStreams
  logger : Option Logger
  configManager : Option ConfigManager
  packageManager : Option PackageManager
  pluginManager : Option PluginManager
  httpClient : Option HTTPClient
deriving DecidableEq, Repr

/-- The Go zero value of `CliOptions`: every field nil. -/
def emptyCliOptions : CliOptions :=
  { ioStreams := none, logger := none, configManager := none,
    packageManager := none, pluginManager := none, httpClient := none }

/-- A configuration step (`CliOption = func(*CliOptions) error`). Go mutates
the record through a pointer and returns an error or nil; this is embedded
as a function returning the record as mutated so far together with
`some errorMessage` or `none`. -/
def CliOption : Type := CliOptions → CliOptions × Option String

/-- The process environment slice options.go reads: `kraftkitPager` is
`os.LookupEnv("KRAFTKIT_PAGER")` (present/absent distinguished), `pagerEnv`
is the generic `PAGER` variable consulted by the stream provider. -/
structure Environment where
  kraftkitPager : Option String
  pagerEnv : Option String
deriving DecidableEq, Repr

/-- The log-style enumeration of kraftkit's `log` package
(`log.LoggerType`). -/
inductive LoggerType where
  | UNKNOWN
  | QUIET
  | BASIC
  | FANCY
  | JSON
deriving DecidableEq, Repr

/-- Modelled from the spec: `log.LoggerTypeFromString` reads the 4-way
enumerated log-style tag \x7bquiet, basic, fancy, structured/json\x7d from its
string form; any other string maps to the unknown tag, which matches no case
of the formatter switch in options.go. -/
def LoggerTypeFromString (s : String) : LoggerType :=
  if s = "quiet" then .QUIET
  else if s = "basic" then .BASIC
  else if s = "fancy" then .FANCY
  else if s = "json" then .JSON
  else .UNKNOWN

/-- Modelled from the spec: `log.Levels()`, the fixed enumeration of level
names used to resolve the configured verbosity name; a name outside the
enumeration has no entry. -/
def Levels (s : String) : Option LogLevel :=
  if s = "trace" then some .trace
  else if s = "debug" then some .debug
  else if s = "info" then some .info
  else if s = "warn" then some .warn
  else if s = "error" then some .error
  else if s = "fatal" then some .fatal
  else if s = "panic" then some .panicL
  else none

/-- Modelled from the spec: `log.L`, the fixed process-wide default logger
used as fallback when no configuration source is present. -/
def logL : Logger := { formatter := none, level := .info, out := none }

/-- `logrus.New()`: a fresh logger at the default info level with the
default formatter untouched and default output. -/
def logrusNew : Logger := { formatter := none, level := .info, out := none }

/-- Modelled from the spec: `iostreams.System()` constructs a streams handle
from the host environment; the generic `PAGER` environment variable is the
lowest non-default pager source, so the handle starts with the pager taken
from `PAGER` (empty when unset), no prompt suppression, and the host output
channel (opaque id 0). -/
def iostreamsSystem (env : Environment) : IOStreams :=
  { out := 0, pager := env.pagerEnv.getD "", neverPrompt := false }

/-- Modelled from the spec: `packmanager.NewUmbrellaManager()`, the
zero-argument umbrella package-manager constructor. -/
def NewUmbrellaManager : PackageManager := .umbrella

/-- Modelled from the spec: `plugins.NewPluginManager(path, nil)`, the
plugin-manager constructor taking the configured plugin search path. -/
def NewPluginManager (path : String) : PluginManager := { path := path }

/-- The signature of the external HTTP client factory
(`httpclient.NewHTTPClient(ioStreams, unixSocketPath, allowInsecure)`,
outside this fragment): it may return a client handle or fail with an
error. `WithDefaultHTTPClient` is parametrised by it. -/
def HTTPFactory : Type := IOStreams → String → Bool → Except String HTTPClient

/-- The formatter installed for the quiet style: a fresh plain logrus
`TextFormatter` with no field set. -/
def quietFormatter : Formatter := { kind := .logrusText }

/-- The kraftkit text formatter as configured when the timestamp flag is
true: `FullTimestamp = true`, `DisableTimestamp = false`. -/
def textFormatterTimestamped : Formatter :=
  { kind := .kraftkitText, fullTimestamp := true, disableTimestamp := false }

/-- The kraftkit text formatter as configured when the timestamp flag is
false: timestamps disabled and the fixed placeholder marker ">" installed as
`TimestampFormat`. -/
def textFormatterPlaceholder : Formatter :=
  { kind := .kraftkitText, fullTimestamp := true, disableTimestamp := true,
    timestampFormat := ">" }

/-- The logrus JSON formatter with the timestamp shown. -/
def jsonFormatterTimestamped : Formatter :=
  { kind := .logrusJSON, disableTimestamp := false }

/-- The logrus JSON formatter with the timestamp omitted. -/
def jsonFormatterOmitted : Formatter :=
  { kind := .logrusJSON, disableTimestamp := true }

/-- `WithDefaultLogger` (options.go:37-115): no-op when the logger is
already set; falls back to `log.L` when no config manager is present;
otherwise builds a fresh logrus logger, selects a formatter by the
configured log style, resolves the level name (defaulting to info), and
binds the output to the I/O streams handle when one is present. -/
def WithDefaultLogger : CliOption := fun copts =>
  match copts.logger with
  | some _ => (copts, none)
  | none =>
    match copts.configManager with
    | none => ({ copts with logger := some logL }, none)
    | some cfgm =>
      let logger := logrusNew
      let logger :=
        match LoggerTypeFromString cfgm.config.log.type with
        | .QUIET =>
          { logger with formatter := some quietFormatter }
        | .BASIC =>
          if cfgm.config.log.timestamps then
            { logger with formatter := some textFormatterTimestamped }
          else
            { logger with formatter := some textFormatterPlaceholder }
        | .FANCY =>
          if cfgm.config.log.timestamps then
            { logger with formatter := some textFormatterTimestamped }
          else
            { logger with formatter := some textFormatterPlaceholder }
        | .JSON =>
          if cfgm.config.log.timestamps then
            { logger with formatter := some jsonFormatterTimestamped }
          else
            { logger with formatter := some jsonFormatterOmitted }
        | .UNKNOWN => logger
      let logger :=
        match Levels cfgm.config.log.level with
        | none => { logger with level := .info }
        | some l => { logger with level := l }
      let logger :=
        match copts.ioStreams with
        | some io => { logger with out := some io.out }
        | none => logger
      ({ copts with logger := some logger }, none)

/-- `WithConfigManager` (options.go:119-124): stores the supplied config
manager unconditionally. -/
def WithConfigManager (cfgm : ConfigManager) : CliOption := fun copts =>
  ({ copts with configManager := some cfgm }, none)

/-- `WithDefaultConfigManager` (options.go:128-145): runs the external
config-source loader (`config.NewConfigManager`, outside this fragment,
passed here as its result `loaded`) and stores the manager on success; on
loader failure the error is returned and nothing is stored. The flag
attribution against the outer CLI parser (`AttributeFlags`/`ParseFlags`) is
out of scope per the spec. Note there is no already-set guard. -/
def WithDefaultConfigManager (loaded : Except String ConfigManager) :
    CliOption := fun copts =>
  match loaded with
  | .error e => (copts, some e)
  | .ok cfgm => ({ copts with configManager := some cfgm }, none)

/-- `WithIOStreams` (options.go:149-154): stores the supplied streams handle
unconditionally. -/
def WithIOStreams (io : IOStreams) : CliOption := fun copts =>
  ({ copts with ioStreams := some io }, none)

/-- `WithDefaultIOStreams` (options.go:158-188): no-op when streams are
already set; otherwise constructs from the host environment, applies the
configured prompt suppression and (when non-empty) the configured pager, and
finally lets the dedicated `KRAFTKIT_PAGER` variable override the pager
whenever it is present in the environment. -/
def WithDefaultIOStreams (env : Environment) : CliOption := fun copts =>
  match copts.ioStreams with
  | some _ => (copts, none)
  | none =>
    let io := iostreamsSystem env
    let io :=
      match copts.configManager with
      | some cfgm =>
        let io :=
          if cfgm.config.noPrompt then { io with neverPrompt := true } else io
        if cfgm.config.pager ≠ "" then
          { io with pager := cfgm.config.pager }
        else io
      | none => io
    let io :=
      match env.kraftkitPager with
      | some kkPager => { io with pager := kkPager }
      | none => io
    ({ copts with ioStreams := some io }, none)

/-- `WithHTTPClient` (options.go:192-197): stores the supplied client
unconditionally. -/
def WithHTTPClient (httpClient : HTTPClient) : CliOption := fun copts =>
  ({ copts with httpClient := some httpClient }, none)

/-- `WithDefaultHTTPClient` (options.go:201-228): no-op when the client is
already set; fails with "cannot access config manager" when the config
manager is absent, then with "cannot access IO streams" when the streams
handle is absent; otherwise invokes the external factory with the streams
handle, the configured Unix-socket path and insecure-allowed `true`, storing
the client on success and returning the factory's error on failure. -/
def WithDefaultHTTPClient (factory : HTTPFactory) : CliOption := fun copts =>
  match copts.httpClient with
  | some _ => (copts, none)
  | none =>
    match copts.configManager with
    | none => (copts, some "cannot access config manager")
    | some cfgm =>
      match copts.ioStreams with
      | none => (copts, some "cannot access IO streams")
      | some io =>
        match factory io cfgm.config.httpUnixSocket true with
        | .error e => (copts, some e)
        | .ok httpClient => ({ copts with httpClient := some httpClient }, none)

/-- `WithPackageManager` (options.go:232-237): stores the supplied manager
unconditionally. -/
def WithPackageManager (pm : PackageManager) : CliOption := fun copts =>
  ({ copts with packageManager := some pm }, none)

/-- `WithDefaultPackageManager` (options.go:241-253): no-op when already
set; otherwise stores the umbrella package manager. -/
def WithDefaultPackageManager : CliOption := fun copts =>
  match copts.packageManager with
  | some _ => (copts, none)
  | none => ({ copts with packageManager := some NewUmbrellaManager }, none)

/-- `WithPluginManager` (options.go:257-262): stores the supplied manager
unconditionally. -/
def WithPluginManager (pm : PluginManager) : CliOption := fun copts =>
  ({ copts with pluginManager := some pm }, none)

/-- `WithDefaultPluginManager` (options.go:266-280): no-op when already set;
fails with "cannot access config manager" when the config manager is absent;
otherwise constructs a plugin manager from the configured plugin search
path. -/
def WithDefaultPluginManager : CliOption := fun copts =>
  match copts.pluginManager with
  | some _ => (copts, none)
  | none =>
    match copts.configManager with
    | none => (copts, some "cannot access config manager")
    | some cfgm =>
      let pm := NewPluginManager cfgm.config.paths.plugins
      ({ copts with pluginManager := some pm }, none)

/-- Modelled from the spec: the option composer's `Apply(context, steps)`
contract (§4.1) — steps are applied strictly in order, threading the mutable
record through each, halting at the first failure with no further steps
run. -/
def Apply : CliOptions → List CliOption → CliOptions × Option String
  | copts, [] => (copts, none)
  | copts, o :: rest =>
    match o copts with
    | (c, some e) => (c, some e)
    | (c, none) => Apply c rest

/-! ## Derived views of the synthesized logger -/

/-- The logger stored by a run of `WithDefaultLogger`. -/
def defaultLoggerResult (copts : CliOptions) : Option Logger :=
  (WithDefaultLogger copts).1.logger

/-- The formatter of the logger stored by a run of `WithDefaultLogger`
(`none` when no logger was stored or its formatter was left untouched). -/
def defaultLoggerFormatter (copts : CliOptions) : Option Formatter :=
  (defaultLoggerResult copts).bind Logger.formatter

/-- The formatter the configuration-present branch of `WithDefaultLogger`
installs for a given configuration (`none` for the unknown style, whose
switch case does not exist and leaves the formatter untouched). -/
def defaultFormatterFor (cfg : Config) : Option Formatter :=
  match LoggerTypeFromString cfg.log.type with
  | .QUIET => some quietFormatter
  | .BASIC =>
    if cfg.log.timestamps then some textFormatterTimestamped
    else some textFormatterPlaceholder
  | .FANCY =>
    if cfg.log.timestamps then some textFormatterTimestamped
    else some textFormatterPlaceholder
  | .JSON =>
    if cfg.log.timestamps then some jsonFormatterTimestamped
    else some jsonFormatterOmitted
  | .UNKNOWN => none

/-- How a formatter configuration renders the timestamp of a record. -/
inductive TimestampDisplay where
  | real
  | placeholder (marker : String)
  | omitted
deriving DecidableEq, Repr

/-- Modelled from the spec: timestamp rendering of the external formatter
implementations, which live outside this fragment (logrus and kraftkit's
`log.TextFormatter`). Per the spec, the quiet style's minimal plain-text
formatter includes no timestamp; the kraftkit text formatter shows a real
timestamp unless `DisableTimestamp` is set, in which case the configured
`TimestampFormat` string is rendered as a fixed placeholder marker; the JSON
formatter shows a real timestamp unless `DisableTimestamp` is set, in which
case the timestamp is omitted. -/
def Formatter.timestampDisplay (f : Formatter) : TimestampDisplay :=
  match f.kind with
  | .logrusText => .omitted
  | .kraftkitText =>
    if f.disableTimestamp then .placeholder f.timestampFormat else .real
  | .logrusJSON =>
    if f.disableTimestamp then .omitted else .real

/-- The logger that the configuration-present branch of `WithDefaultLogger`
stores: formatter by configured style, level by looked-up level name (info
when the name is unknown), output bound to the streams handle when one is
present. -/
def configuredLogger (copts : CliOptions) (cfgm : ConfigManager) : Logger :=
  { formatter := defaultFormatterFor cfgm.config,
    level := (Levels cfgm.config.log.level).getD .info,
    out := copts.ioStreams.map IOStreams.out }

/-- The pager value stored by the configuration-present branch of
`WithDefaultIOStreams`: the dedicated `KRAFTKIT_PAGER` variable whenever it
is present in the environment, else the configured pager when non-empty,
else the generic `PAGER` value the stream provider started from (empty when
unset). -/
def selectedPager (env : Environment) (cfg : Config) : String :=
  match env.kraftkitPager with
  | some kkPager => kkPager
  | none => if cfg.pager ≠ "" then cfg.pager else env.pagerEnv.getD ""

/-- Every `CliOptions` field already set in `a` is still set to the same
value in `b`. -/
def FieldsPreserved (a b : CliOptions) : Prop :=
  (∀ x, a.ioStreams = some x → b.ioStreams = some x) ∧
  (∀ x, a.logger = some x → b.logger = some x) ∧
  (∀ x, a.configManager = some x → b.configManager = some x) ∧
  (∀ x, a.packageManager = some x → b.packageManager = some x) ∧
  (∀ x, a.pluginManager = some x → b.pluginManager = some x) ∧
  (∀ x, a.httpClient = some x → b.httpClient = some x)

/-- The five default-synthesis steps that carry an already-set guard (every
default step except `WithDefaultConfigManager`, which has none), each with
the external input it consumes. -/
inductive GuardedDefault where
  | loggerStep : GuardedDefault
  | streamsStep (env : Environment) : GuardedDefault
  | httpStep (factory : HTTPFactory) : GuardedDefault
  | packagesStep : GuardedDefault
  | pluginsStep : GuardedDefault

/-- The configuration step a `GuardedDefault` tag denotes. -/
def GuardedDefault.toOption : GuardedDefault → CliOption
  | .loggerStep => WithDefaultLogger
  | .streamsStep env => WithDefaultIOStreams env
  | .httpStep factory => WithDefaultHTTPClient factory
  | .packagesStep => WithDefaultPackageManager
  | .pluginsStep => WithDefaultPluginManager

/-! ## Concrete sample data for witnesses and counterexamples -/

/-- A sample streams handle on output channel 1. -/
def io1 : IOStreams := { out := 1, pager := "", neverPrompt := false }

/-- A second, distinct sample streams handle on output channel 2. -/
def io2 : IOStreams := { out := 2, pager := "", neverPrompt := false }

/-- A sample configuration: basic log style, known level name, timestamps
off, pager "less". -/
def cfgSample : Config :=
  { log := { type := "basic", level := "debug", timestamps := false },
    noPrompt := false, pager := "less", httpUnixSocket := "/tmp/x.sock",
    paths := { plugins := "/plugins" } }

/-- The sample configuration wrapped in a config-manager handle. -/
def cfgmSample : ConfigManager := { config := cfgSample }

/-- A configuration whose log-level name "chatty" lies outside the fixed
level enumeration. -/
def cfgBadLevel : Config :=
  { log := { type := "fancy", level := "chatty", timestamps := true },
    noPrompt := false, pager := "", httpUnixSocket := "",
    paths := { plugins := "" } }

/-- The unknown-level configuration wrapped in a config-manager handle. -/
def cfgmBadLevel : ConfigManager := { config := cfgBadLevel }

/-- A configuration with the quiet log style. -/
def cfgQuiet : Config :=
  { log := { type := "quiet", level := "info", timestamps := true },
    noPrompt := false, pager := "", httpUnixSocket := "",
    paths := { plugins := "" } }

/-- The quiet configuration wrapped in a config-manager handle. -/
def cfgmQuiet : ConfigManager := { config := cfgQuiet }

/-- An environment with both pager variables set. -/
def envBoth : Environment :=
  { kraftkitPager := some "kkpager", pagerEnv := some "more" }

/-- An environment where only the dedicated variable is present, with the
empty value. -/
def envEmptyKK : Environment := { kraftkitPager := some "", pagerEnv := none }

/-- An empty environment. -/
def envNone : Environment := { kraftkitPager := none, pagerEnv := none }

/-- An HTTP client factory that always fails with "boom". -/
def failingFactory : HTTPFactory := fun _ _ _ => Except.error "boom"

/-- An HTTP client factory that always succeeds. -/
def okFactory : HTTPFactory := fun _ _ _ => Except.ok { tag := 7 }

/-- A context holding a config manager and streams, ready for the HTTP
default step. -/
def coptsHTTP : CliOptions :=
  { emptyCliOptions with
      configManager := some cfgmSample
      ioStreams := some io1 }

/-- A context holding only the sample config manager. -/
def coptsCfgOnly : CliOptions :=
  { emptyCliOptions with configManager := some cfgmSample }

/-- A context holding only the unknown-level config manager. -/
def coptsBadLevel : CliOptions :=
  { emptyCliOptions with configManager := some cfgmBadLevel }

/-- A context holding only the quiet-style config manager. -/
def coptsQuiet : CliOptions :=
  { emptyCliOptions with configManager := some cfgmQuiet }

/-- A context holding only a streams handle. -/
def coptsIO : CliOptions := { emptyCliOptions with ioStreams := some io1 }

/-- A context holding the sample config manager and a streams handle, with
the logger unset. -/
def coptsCfgIO : CliOptions :=
  { emptyCliOptions with
      configManager := some cfgmSample
      ioStreams := some io1 }

/-- A context whose logger is already set to the process-wide default. -/
def coptsLoggerSet : CliOptions := { emptyCliOptions with logger := some logL }

/-! ## Helper lemmas -/

/-- Characterization of the configuration-present branch of
`WithDefaultLogger`: it succeeds and stores a logger whose formatter follows
the configured style, whose level is the looked-up level name (info when the
name is unknown), and whose output is bound to the streams handle when one
is present. -/
theorem WithDefaultLogger_eq (copts : CliOptions) (cfgm : ConfigManager)
    (h1 : copts.logger = none) (h2 : copts.configManager = some cfgm) :
    WithDefaultLogger copts =
      ({ copts with logger := some (configuredLogger copts cfgm) }, none) := by
  simp only [WithDefaultLogger, h1, h2]
  cases hty : LoggerTypeFromString cfgm.config.log.type <;>
    cases hts : cfgm.config.log.timestamps <;>
      cases hlv : Levels cfgm.config.log.level <;>
        cases hio : copts.ioStreams <;>
          simp [configuredLogger, defaultFormatterFor, hty, hts, hlv, hio,
            logrusNew]

/-- Characterization of the streams default step with a configuration source
present: it succeeds and the stored handle's pager is `selectedPager`. -/
theorem WithDefaultIOStreams_pager (env : Environment) (copts : CliOptions)
    (cfgm : ConfigManager) (h1 : copts.ioStreams = none)
    (h2 : copts.configManager = some cfgm) :
    ((WithDefaultIOStreams env copts).1.ioStreams.map IOStreams.pager) =
      some (selectedPager env cfgm.config) ∧
    (WithDefaultIOStreams env copts).2 = none := by
  cases hk : env.kraftkitPager <;>
    cases hnp : cfgm.config.noPrompt <;>
      by_cases hp : cfgm.config.pager = "" <;>
        simp [WithDefaultIOStreams, iostreamsSystem, selectedPager, h1, h2,
          hk, hnp, hp]

/-- `FieldsPreserved` is reflexive. -/
theorem fieldsPreserved_refl (a : CliOptions) : FieldsPreserved a a := by
  unfold FieldsPreserved
  exact ⟨fun _ h => h, fun _ h => h, fun _ h => h, fun _ h => h,
    fun _ h => h, fun _ h => h⟩

/-- `FieldsPreserved` composes along a pass. -/
theorem fieldsPreserved_trans {a b c : CliOptions}
    (h1 : FieldsPreserved a b) (h2 : FieldsPreserved b c) :
    FieldsPreserved a c := by
  obtain ⟨p1, p2, p3, p4, p5, p6⟩ := h1
  obtain ⟨q1, q2, q3, q4, q5, q6⟩ := h2
  exact ⟨fun x h => q1 x (p1 x h), fun x h => q2 x (p2 x h),
    fun x h => q3 x (p3 x h), fun x h => q4 x (p4 x h),
    fun x h => q5 x (p5 x h), fun x h => q6 x (p6 x h)⟩

/-- The logger default step preserves every already-set field. -/
theorem withDefaultLogger_preserves (copts : CliOptions) :
    FieldsPreserved copts (WithDefaultLogger copts).1 := by
  unfold FieldsPreserved
  cases hl : copts.logger with
  | some l => simp [WithDefaultLogger, hl]
  | none =>
    cases hcm : copts.configManager with
    | none => simp [WithDefaultLogger, hl, hcm]
    | some cfgm =>
      have he := WithDefaultLogger_eq copts cfgm hl hcm
      simp [he, hl, hcm]

/-- The streams default step preserves every already-set field. -/
theorem withDefaultIOStreams_preserves (env : Environment)
    (copts : CliOptions) :
    FieldsPreserved copts (WithDefaultIOStreams env copts).1 := by
  unfold FieldsPreserved
  cases hio : copts.ioStreams with
  | some io => simp [WithDefaultIOStreams, hio]
  | none =>
    cases hcm : copts.configManager <;>
      simp [WithDefaultIOStreams, hio, hcm]

/-- The HTTP client default step preserves every already-set field. -/
theorem withDefaultHTTPClient_preserves (factory : HTTPFactory)
    (copts : CliOptions) :
    FieldsPreserved copts (WithDefaultHTTPClient factory copts).1 := by
  unfold FieldsPreserved
  cases hc : copts.httpClient with
  | some c => simp [WithDefaultHTTPClient, hc]
  | none =>
    cases hcm : copts.configManager with
    | none => simp [WithDefaultHTTPClient, hc, hcm]
    | some cfgm =>
      cases hio : copts.ioStreams with
      | none => simp [WithDefaultHTTPClient, hc, hcm, hio]
      | some io =>
        cases hf : factory io cfgm.config.httpUnixSocket true <;>
          simp [WithDefaultHTTPClient, hc, hcm, hio, hf]

/-- The package-manager default step preserves every already-set field. -/
theorem withDefaultPackageManager_preserves (copts : CliOptions) :
    FieldsPreserved copts (WithDefaultPackageManager copts).1 := by
  unfold FieldsPreserved
  cases hp : copts.packageManager <;> simp [WithDefaultPackageManager, hp]

/-- The plugin-manager default step preserves every already-set field. -/
theorem withDefaultPluginManager_preserves (copts : CliOptions) :
    FieldsPreserved copts (WithDefaultPluginManager copts).1 := by
  unfold FieldsPreserved
  cases hp : copts.pluginManager with
  | some pm => simp [WithDefaultPluginManager, hp]
  | none =>
    cases hcm : copts.configManager <;>
      simp [WithDefaultPluginManager, hp, hcm]

/-- Every guarded default step preserves every already-set field. -/
theorem guardedDefault_preserves (d : GuardedDefault) (copts : CliOptions) :
    FieldsPreserved copts ((d.toOption) copts).1 := by
  cases d with
  | loggerStep => exact withDefaultLogger_preserves copts
  | streamsStep env => exact withDefaultIOStreams_preserves env copts
  | httpStep factory => exact withDefaultHTTPClient_preserves factory copts
  | packagesStep => exact withDefaultPackageManager_preserves copts
  | pluginsStep => exact withDefaultPluginManager_preserves copts

/-- No-op character of the logger default step on an already-set field. -/
theorem withDefaultLogger_noop (copts : CliOptions)
    (h : copts.logger.isSome) : WithDefaultLogger copts = (copts, none) := by
  cases hl : copts.logger with
  | none => rw [hl] at h; cases h
  | some l => simp [WithDefaultLogger, hl]

/-- No-op character of the streams default step on an already-set field. -/
theorem withDefaultIOStreams_noop (env : Environment) (copts : CliOptions)
    (h : copts.ioStreams.isSome) :
    WithDefaultIOStreams env copts = (copts, none) := by
  cases hio : copts.ioStreams with
  | none => rw [hio] at h; cases h
  | some io => simp [WithDefaultIOStreams, hio]

/-- No-op character of the HTTP default step on an already-set field. -/
theorem withDefaultHTTPClient_noop (factory : HTTPFactory)
    (copts : CliOptions) (h : copts.httpClient.isSome) :
    WithDefaultHTTPClient factory copts = (copts, none) := by
  cases hc : copts.httpClient with
  | none => rw [hc] at h; cases h
  | some c => simp [WithDefaultHTTPClient, hc]

/-- No-op character of the package-manager default step on an already-set
field. -/
theorem withDefaultPackageManager_noop (copts : CliOptions)
    (h : copts.packageManager.isSome) :
    WithDefaultPackageManager copts = (copts, none) := by
  cases hp : copts.packageManager with
  | none => rw [hp] at h; cases h
  | some pm => simp [WithDefaultPackageManager, hp]

/-- No-op character of the plugin-manager default step on an already-set
field. -/
theorem withDefaultPluginManager_noop (copts : CliOptions)
    (h : copts.pluginManager.isSome) :
    WithDefaultPluginManager copts = (copts, none) := by
  cases hp : copts.pluginManager with
  | none => rw [hp] at h; cases h
  | some pm => simp [WithDefaultPluginManager, hp]

/-- A successful run of the logger default step leaves the logger set. -/
theorem withDefaultLogger_sets (copts : CliOptions) :
    ((WithDefaultLogger copts).1).logger.isSome := by
  cases hl : copts.logger with
  | some l => simp [WithDefaultLogger, hl]
  | none =>
    cases hcm : copts.configManager with
    | none => simp [WithDefaultLogger, hl, hcm]
    | some cfgm =>
      have he := WithDefaultLogger_eq copts cfgm hl hcm
      simp [he]

/-- A run of the streams default step leaves the streams set. -/
theorem withDefaultIOStreams_sets (env : Environment) (copts : CliOptions) :
    ((WithDefaultIOStreams env copts).1).ioStreams.isSome := by
  cases hio : copts.ioStreams with
  | some io => simp [WithDefaultIOStreams, hio]
  | none =>
    cases hcm : copts.configManager <;>
      simp [WithDefaultIOStreams, hio, hcm]

/-- A successful run of the HTTP default step leaves the client set. -/
theorem withDefaultHTTPClient_sets (factory : HTTPFactory)
    (copts : CliOptions)
    (h : (WithDefaultHTTPClient factory copts).2 = none) :
    ((WithDefaultHTTPClient factory copts).1).httpClient.isSome := by
  cases hc : copts.httpClient with
  | some c => simp [WithDefaultHTTPClient, hc]
  | none =>
    cases hcm : copts.configManager with
    | none => simp [WithDefaultHTTPClient, hc, hcm] at h
    | some cfgm =>
      cases hio : copts.ioStreams with
      | none => simp [WithDefaultHTTPClient, hc, hcm, hio] at h
      | some io =>
        cases hf : factory io cfgm.config.httpUnixSocket true with
        | error e => simp [WithDefaultHTTPClient, hc, hcm, hio, hf] at h
        | ok c => simp [WithDefaultHTTPClient, hc, hcm, hio, hf]

/-- A run of the package-manager default step leaves the manager set. -/
theorem withDefaultPackageManager_sets (copts : CliOptions) :
    ((WithDefaultPackageManager copts).1).packageManager.isSome := by
  cases hp : copts.packageManager <;> simp [WithDefaultPackageManager, hp]

/-- A successful run of the plugin-manager default step leaves the manager
set. -/
theorem withDefaultPluginManager_sets (copts : CliOptions)
    (h : (WithDefaultPluginManager copts).2 = none) :
    ((WithDefaultPluginManager copts).1).pluginManager.isSome := by
  cases hp : copts.pluginManager with
  | some pm => simp [WithDefaultPluginManager, hp]
  | none =>
    cases hcm : copts.configManager with
    | none => simp [WithDefaultPluginManager, hp, hcm] at h
    | some cfgm => simp [WithDefaultPluginManager, hp, hcm]

/-- Applying a step twice agrees with applying it once, provided a
successful application is absorbed by a second one. -/
theorem apply_twice_eq (o : CliOption)
    (hsecond : ∀ c c', o c = (c', none) → o c' = (c', none))
    (copts : CliOptions) : Apply copts [o, o] = Apply copts [o] := by
  cases ho : o copts with
  | mk c err =>
    cases err with
    | some e => simp [Apply, ho]
    | none => simp [Apply, ho, hsecond copts c ho]

/-! ## Claims -/

/-- Claim C1 (counterexample): the claim that once any field has been set by
some step no later step overwrites it is false: the explicit-supply step
`WithIOStreams` has no already-set guard, so after a first step sets the
streams handle to `io1`, a later `WithIOStreams io2` step overwrites it, and
the value at the end of the pass is `io2`, not `io1`. -/
theorem C1_counterexample :
    (WithIOStreams io1 emptyCliOptions).1.ioStreams = some io1 ∧
    (Apply emptyCliOptions [WithIOStreams io1, WithIOStreams io2]).1.ioStreams
      = some io2 ∧
    io2 ≠ io1 := by
  refine ⟨rfl, rfl, ?_⟩
  decide

/-- Claim C1 (amended): along any sequence built from the guarded
default-synthesis steps (`WithDefaultLogger`, `WithDefaultIOStreams`,
`WithDefaultHTTPClient`, `WithDefaultPackageManager`,
`WithDefaultPluginManager`), once a field is set its value survives to the
end of the pass; the explicit-supply steps and `WithDefaultConfigManager`
carry no such guard and overwrite. -/
theorem C1_set_fields_survive_guarded_defaults (ds : List GuardedDefault)
    (copts : CliOptions) :
    FieldsPreserved copts (Apply copts (ds.map GuardedDefault.toOption)).1 := by
  induction ds generalizing copts with
  | nil => simpa [Apply] using fieldsPreserved_refl copts
  | cons d rest ih =>
    have hp := guardedDefault_preserves d copts
    cases hstep : d.toOption copts with
    | mk c err =>
      rw [hstep] at hp
      cases err with
      | some e => simpa [Apply, hstep] using hp
      | none =>
        have hc := fieldsPreserved_trans hp (ih c)
        simpa [Apply, hstep] using hc

/-- Claim C1 (witness): a streams handle set before a pass of guarded
default steps is still present, unchanged, at the end. -/
theorem C1_witness :
    (Apply coptsIO
      ([GuardedDefault.loggerStep,
        GuardedDefault.packagesStep].map GuardedDefault.toOption)).1.ioStreams
      = some io1 :=
  (C1_set_fields_survive_guarded_defaults
    [GuardedDefault.loggerStep, GuardedDefault.packagesStep] coptsIO).1 io1 rfl

/-- Claim C2: pager selection precedence in `WithDefaultIOStreams` with the
streams unset and a configuration source present: the dedicated
`KRAFTKIT_PAGER` variable wins whenever present; with it absent the
non-empty configured pager wins; with that also empty the generic `PAGER`
value wins; with all three absent or empty no pager is set. -/
theorem C2_pager_precedence (env : Environment) (cfgm : ConfigManager)
    (copts : CliOptions) (h1 : copts.ioStreams = none)
    (h2 : copts.configManager = some cfgm) :
    (∀ k, env.kraftkitPager = some k →
      ((WithDefaultIOStreams env copts).1.ioStreams.map IOStreams.pager)
        = some k) ∧
    (env.kraftkitPager = none → cfgm.config.pager ≠ "" →
      ((WithDefaultIOStreams env copts).1.ioStreams.map IOStreams.pager)
        = some cfgm.config.pager) ∧
    (∀ p, env.kraftkitPager = none → cfgm.config.pager = "" →
      env.pagerEnv = some p →
      ((WithDefaultIOStreams env copts).1.ioStreams.map IOStreams.pager)
        = some p) ∧
    (env.kraftkitPager = none → cfgm.config.pager = "" →
      env.pagerEnv = none →
      ((WithDefaultIOStreams env copts).1.ioStreams.map IOStreams.pager)
        = some "") := by
  have hsel := (WithDefaultIOStreams_pager env copts cfgm h1 h2).1
  refine ⟨fun k hk => ?_, fun hk hp => ?_, fun p hk hp hpe => ?_,
    fun hk hp hpe => ?_⟩ <;>
    simp [hsel, selectedPager, *]

/-- Claim C2 (witness): with every source populated the dedicated variable
value wins. -/
theorem C2_witness :
    ((WithDefaultIOStreams envBoth coptsCfgOnly).1.ioStreams.map
      IOStreams.pager) = some "kkpager" :=
  (C2_pager_precedence envBoth cfgmSample coptsCfgOnly rfl rfl).1 "kkpager" rfl

/-- Claim C3: with the HTTP client unset, `WithDefaultHTTPClient` fails with
a missing-dependency error naming the config manager when the configuration
source is absent (checked first, so this is the failure with no
configuration source present), and naming the I/O streams when those are
absent; in either failure the httpClient field stays unset. -/
theorem C3_http_missing_dependency (copts : CliOptions)
    (factory : HTTPFactory) (h : copts.httpClient = none) :
    (copts.configManager = none →
      WithDefaultHTTPClient factory copts =
        (copts, some "cannot access config manager")) ∧
    (∀ cfgm, copts.configManager = some cfgm → copts.ioStreams = none →
      WithDefaultHTTPClient factory copts =
        (copts, some "cannot access IO streams")) ∧
    ((copts.configManager = none ∨ copts.ioStreams = none) →
      (WithDefaultHTTPClient factory copts).1.httpClient = none) := by
  refine ⟨fun h2 => ?_, fun cfgm h2 h3 => ?_, fun h4 => ?_⟩
  · simp [WithDefaultHTTPClient, h, h2]
  · simp [WithDefaultHTTPClient, h, h2, h3]
  · rcases h4 with h2 | h3
    · simp [WithDefaultHTTPClient, h, h2]
    · cases hcm : copts.configManager with
      | none => simp [WithDefaultHTTPClient, h, hcm]
      | some cfgm => simp [WithDefaultHTTPClient, h, hcm, h3]

/-- Claim C3 (witness): on the empty context the HTTP default step fails
naming the config manager and stores nothing. -/
theorem C3_witness :
    WithDefaultHTTPClient okFactory emptyCliOptions =
      (emptyCliOptions, some "cannot access config manager") :=
  (C3_http_missing_dependency emptyCliOptions okFactory rfl).1 rfl

/-- Claim C4 (counterexample): factory errors are returned unchanged, not
wrapped with the failing aspect's name: a factory failing with "boom" makes
`WithDefaultHTTPClient` return exactly "boom", which names no aspect, and a
loader failing with "nope" makes `WithDefaultConfigManager` return exactly
"nope". -/
theorem C4_counterexample :
    WithDefaultHTTPClient failingFactory coptsHTTP =
      (coptsHTTP, some "boom") ∧
    ¬ ("http".toList <:+: "boom".toList) ∧
    ¬ ("client".toList <:+: "boom".toList) ∧
    WithDefaultConfigManager (Except.error "nope") emptyCliOptions =
      (emptyCliOptions, some "nope") ∧
    ¬ ("config".toList <:+: "nope".toList) := by
  exact ⟨rfl, by decide, by decide, rfl, by decide⟩

/-- Claim C4 (amended): when an external factory invoked by a
default-synthesis step fails, the step returns the factory's error
unchanged (verbatim, with no aspect-name wrapping), the step's field is not
set, and the composition pass aborts at that step. -/
theorem C4_factory_errors_propagate_verbatim (copts : CliOptions)
    (factory : HTTPFactory) (loaded : Except String ConfigManager)
    (e : String) :
    (∀ cfgm io, copts.httpClient = none → copts.configManager = some cfgm →
      copts.ioStreams = some io →
      factory io cfgm.config.httpUnixSocket true = Except.error e →
      WithDefaultHTTPClient factory copts = (copts, some e)) ∧
    (loaded = Except.error e →
      WithDefaultConfigManager loaded copts = (copts, some e)) ∧
    (∀ rest, loaded = Except.error e →
      Apply copts (WithDefaultConfigManager loaded :: rest) =
        (copts, some e)) := by
  refine ⟨fun cfgm io hc hcm hio hf => ?_, fun hl => ?_, fun rest hl => ?_⟩
  · simp [WithDefaultHTTPClient, hc, hcm, hio, hf]
  · simp [WithDefaultConfigManager, hl]
  · simp [Apply, WithDefaultConfigManager, hl]

/-- Claim C4 (witness): a failing loader's error aborts a pass verbatim with
nothing stored. -/
theorem C4_witness :
    Apply emptyCliOptions
      [WithDefaultConfigManager (Except.error "loadfail"),
       WithDefaultPackageManager] = (emptyCliOptions, some "loadfail") :=
  (C4_factory_errors_propagate_verbatim emptyCliOptions failingFactory
    (Except.error "loadfail") "loadfail").2.2 [WithDefaultPackageManager] rfl

/-- Claim C5: formatter timestamp selection in `WithDefaultLogger` with a
configuration source present: the quiet style's formatter never includes a
timestamp; the basic and fancy styles show a real timestamp exactly when the
configured timestamp flag is true and install the fixed placeholder marker
">" as the timestamp format when it is false; the JSON style shows the
timestamp exactly when the flag is true and omits it (`DisableTimestamp`)
when it is false. -/
theorem C5_formatter_timestamp_selection (copts : CliOptions)
    (cfgm : ConfigManager) (h1 : copts.logger = none)
    (h2 : copts.configManager = some cfgm) :
    (cfgm.config.log.type = "quiet" →
      (defaultLoggerFormatter copts).map Formatter.timestampDisplay =
        some TimestampDisplay.omitted) ∧
    (cfgm.config.log.type = "basic" ∨ cfgm.config.log.type = "fancy" →
      ((defaultLoggerFormatter copts).map Formatter.timestampDisplay =
        some (if cfgm.config.log.timestamps then TimestampDisplay.real
          else TimestampDisplay.placeholder ">") ∧
      (cfgm.config.log.timestamps = false →
        (defaultLoggerFormatter copts).map Formatter.timestampFormat =
          some ">"))) ∧
    (cfgm.config.log.type = "json" →
      ((defaultLoggerFormatter copts).map Formatter.timestampDisplay =
        some (if cfgm.config.log.timestamps then TimestampDisplay.real
          else TimestampDisplay.omitted) ∧
      (defaultLoggerFormatter copts).map Formatter.disableTimestamp =
        some (!cfgm.config.log.timestamps))) := by
  have he := WithDefaultLogger_eq copts cfgm h1 h2
  refine ⟨fun hty => ?_, fun hty => ?_, fun hty => ?_⟩
  · simp [defaultLoggerFormatter, defaultLoggerResult, he, configuredLogger,
      defaultFormatterFor, LoggerTypeFromString, hty, quietFormatter,
      Formatter.timestampDisplay]
  · rcases hty with hty | hty <;>
      cases hts : cfgm.config.log.timestamps <;>
        simp [defaultLoggerFormatter, defaultLoggerResult, he,
          configuredLogger, defaultFormatterFor, LoggerTypeFromString, hty,
          hts, textFormatterTimestamped, textFormatterPlaceholder,
          Formatter.timestampDisplay]
  · cases hts : cfgm.config.log.timestamps <;>
      simp [defaultLoggerFormatter, defaultLoggerResult, he,
        configuredLogger, defaultFormatterFor, LoggerTypeFromString, hty,
        hts, jsonFormatterTimestamped, jsonFormatterOmitted,
        Formatter.timestampDisplay]

/-- Claim C5 (witness): the quiet style yields a formatter with no
timestamp. -/
theorem C5_witness :
    (defaultLoggerFormatter coptsQuiet).map Formatter.timestampDisplay =
      some TimestampDisplay.omitted :=
  (C5_formatter_timestamp_selection coptsQuiet cfgmQuiet rfl rfl).1 rfl

/-- Claim C6: with a configuration source present and a configured log-level
name outside the fixed level enumeration, `WithDefaultLogger` sets the level
to info and still succeeds. -/
theorem C6_unknown_level_defaults_to_info (copts : CliOptions)
    (cfgm : ConfigManager) (h1 : copts.logger = none)
    (h2 : copts.configManager = some cfgm)
    (h3 : Levels cfgm.config.log.level = none) :
    (WithDefaultLogger copts).2 = none ∧
    (defaultLoggerResult copts).map Logger.level = some LogLevel.info := by
  have he := WithDefaultLogger_eq copts cfgm h1 h2
  simp [defaultLoggerResult, he, configuredLogger, h3]

/-- Claim C6 (witness): the unknown level name "chatty" resolves to info
without failing. -/
theorem C6_witness :
    (WithDefaultLogger coptsBadLevel).2 = none ∧
    (defaultLoggerResult coptsBadLevel).map Logger.level =
      some LogLevel.info :=
  C6_unknown_level_defaults_to_info coptsBadLevel cfgmBadLevel rfl rfl
    (by decide)

/-- Claim C7: with the plugin manager unset, `WithDefaultPluginManager`
fails with a missing-dependency error when the configuration source is
absent, and otherwise succeeds storing a plugin manager constructed from the
configured plugin search path. -/
theorem C7_plugin_manager_dependency (copts : CliOptions)
    (h : copts.pluginManager = none) :
    (copts.configManager = none →
      WithDefaultPluginManager copts =
        (copts, some "cannot access config manager")) ∧
    (∀ cfgm, copts.configManager = some cfgm →
      WithDefaultPluginManager copts =
        ({ copts with
            pluginManager := some (NewPluginManager cfgm.config.paths.plugins) },
          none)) := by
  refine ⟨fun h2 => ?_, fun cfgm h2 => ?_⟩ <;>
    simp [WithDefaultPluginManager, h, h2]

/-- Claim C7 (witness): with the sample configuration the plugin manager is
built from the configured path "/plugins". -/
theorem C7_witness :
    WithDefaultPluginManager coptsCfgOnly =
      ({ coptsCfgOnly with
          pluginManager := some (NewPluginManager cfgmSample.config.paths.plugins) },
        none) :=
  (C7_plugin_manager_dependency coptsCfgOnly rfl).2 cfgmSample rfl

/-- Claim C8: with the logger unset and no configuration source,
`WithDefaultLogger` stores the fixed process-wide default logger `log.L` and
succeeds; with a configuration source and a streams handle present, the
synthesized logger's output is bound to that handle's output channel. -/
theorem C8_logger_fallback_and_output_binding (copts : CliOptions)
    (h1 : copts.logger = none) :
    (copts.configManager = none →
      WithDefaultLogger copts =
        ({ copts with logger := some logL }, none)) ∧
    (∀ cfgm io, copts.configManager = some cfgm →
      copts.ioStreams = some io →
      (WithDefaultLogger copts).2 = none ∧
      (defaultLoggerResult copts).map Logger.out = some (some io.out)) := by
  refine ⟨fun h2 => ?_, fun cfgm io h2 hio => ?_⟩
  · simp [WithDefaultLogger, h1, h2]
  · have he := WithDefaultLogger_eq copts cfgm h1 h2
    simp [defaultLoggerResult, he, configuredLogger, hio]

/-- Claim C8 (witness): on the empty context the logger falls back to the
process-wide default. -/
theorem C8_witness :
    WithDefaultLogger emptyCliOptions =
      ({ emptyCliOptions with logger := some logL }, none) :=
  (C8_logger_fallback_and_output_binding emptyCliOptions rfl).1 rfl

/-- Claim C9: each guarded default-synthesis step is a no-op when its aspect
field is already set — it succeeds and leaves the whole record unchanged —
and consequently applying any of these steps twice in a row equals applying
it once. -/
theorem C9_defaults_noop_and_idempotent (copts : CliOptions)
    (env : Environment) (factory : HTTPFactory) :
    (copts.logger.isSome → WithDefaultLogger copts = (copts, none)) ∧
    (copts.ioStreams.isSome →
      WithDefaultIOStreams env copts = (copts, none)) ∧
    (copts.httpClient.isSome →
      WithDefaultHTTPClient factory copts = (copts, none)) ∧
    (copts.packageManager.isSome →
      WithDefaultPackageManager copts = (copts, none)) ∧
    (copts.pluginManager.isSome →
      WithDefaultPluginManager copts = (copts, none)) ∧
    Apply copts [WithDefaultLogger, WithDefaultLogger] =
      Apply copts [WithDefaultLogger] ∧
    Apply copts [WithDefaultIOStreams env, WithDefaultIOStreams env] =
      Apply copts [WithDefaultIOStreams env] ∧
    Apply copts [WithDefaultHTTPClient factory,
      WithDefaultHTTPClient factory] =
      Apply copts [WithDefaultHTTPClient factory] ∧
    Apply copts [WithDefaultPackageManager, WithDefaultPackageManager] =
      Apply copts [WithDefaultPackageManager] ∧
    Apply copts [WithDefaultPluginManager, WithDefaultPluginManager] =
      Apply copts [WithDefaultPluginManager] := by
  refine ⟨withDefaultLogger_noop copts, withDefaultIOStreams_noop env copts,
    withDefaultHTTPClient_noop factory copts,
    withDefaultPackageManager_noop copts,
    withDefaultPluginManager_noop copts, ?_, ?_, ?_, ?_, ?_⟩
  · refine apply_twice_eq _ (fun c c' hc => ?_) copts
    have hs := withDefaultLogger_sets c
    rw [hc] at hs
    exact withDefaultLogger_noop c' hs
  · refine apply_twice_eq _ (fun c c' hc => ?_) copts
    have hs := withDefaultIOStreams_sets env c
    rw [hc] at hs
    exact withDefaultIOStreams_noop env c' hs
  · refine apply_twice_eq _ (fun c c' hc => ?_) copts
    have hs := withDefaultHTTPClient_sets factory c (by rw [hc])
    rw [hc] at hs
    exact withDefaultHTTPClient_noop factory c' hs
  · refine apply_twice_eq _ (fun c c' hc => ?_) copts
    have hs := withDefaultPackageManager_sets c
    rw [hc] at hs
    exact withDefaultPackageManager_noop c' hs
  · refine apply_twice_eq _ (fun c c' hc => ?_) copts
    have hs := withDefaultPluginManager_sets c (by rw [hc])
    rw [hc] at hs
    exact withDefaultPluginManager_noop c' hs

/-- Claim C9 (witness): with the logger already set, the logger default step
returns success and the record unchanged. -/
theorem C9_witness :
    WithDefaultLogger coptsLoggerSet = (coptsLoggerSet, none) :=
  (C9_defaults_noop_and_idempotent coptsLoggerSet envNone okFactory).1 rfl

/-- Claim C10: a `KRAFTKIT_PAGER` present in the environment with the empty
value still wins over a non-empty configured pager: the resulting pager is
the empty string, not the configuration value. -/
theorem C10_present_empty_dedicated_pager_wins (copts : CliOptions)
    (cfgm : ConfigManager) (env : Environment)
    (h1 : copts.ioStreams = none) (h2 : copts.configManager = some cfgm)
    (h3 : cfgm.config.pager ≠ "") (h4 : env.kraftkitPager = some "") :
    ((WithDefaultIOStreams env copts).1.ioStreams.map IOStreams.pager)
      = some "" ∧
    ((WithDefaultIOStreams env copts).1.ioStreams.map IOStreams.pager)
      ≠ some cfgm.config.pager := by
  have hsel := (WithDefaultIOStreams_pager env copts cfgm h1 h2).1
  have hmain :
      ((WithDefaultIOStreams env copts).1.ioStreams.map IOStreams.pager)
        = some "" := by
    simp [hsel, selectedPager, h4]
  refine ⟨hmain, ?_⟩
  rw [hmain]
  intro hcontra
  exact h3 (Option.some.injEq .. ▸ hcontra).symm

/-- Claim C10 (witness): `KRAFTKIT_PAGER=""` beats the configured pager
"less". -/
theorem C10_witness :
    ((WithDefaultIOStreams envEmptyKK coptsCfgOnly).1.ioStreams.map
      IOStreams.pager) = some "" ∧
    ((WithDefaultIOStreams envEmptyKK coptsCfgOnly).1.ioStreams.map
      IOStreams.pager) ≠ some cfgmSample.config.pager :=
  C10_present_empty_dedicated_pager_wins coptsCfgOnly cfgmSample envEmptyKK
    rfl rfl (by decide) rfl

end KraftKit
